import Mathlib

/-!
Shallow embedding of `src/twitter_bot.py` (a periodic content-rotation
posting bot) and verification of the specification's claims about it.

The bot keeps an ordered list of tweets, a rotation cursor persisted in a
text file (`current_index.txt`), and a flag recording whether the Twitter
API client was constructed successfully.  Every posting cycle
(`post_next_tweet`) first reloads the tweet list, resets and persists the
cursor when the list changed, then attempts to publish the current item
(with a run of invisible characters appended), and finally advances the
cursor on success or on a duplicate-content error.

The embedding models:
  * the content source (present / missing / malformed JSON),
  * the cursor file as raw string contents (decimal rendering and
    `int(...)` parsing are modelled explicitly so that persistence
    round-trips are real theorems),
  * the publish attempt's outcome as an oracle parameter (success, all
    three fallback methods failing with their exceptions caught, or an
    exception reaching the outer handler with a given message),
  * the pseudo-random choices of `random.choice`/`random.randint` as an
    explicit list of indices into the invisible-character alphabet.
-/

/-- State of the external content source (`tweets.json`).
`missing` models `FileNotFoundError`, `malformed` models
`json.JSONDecodeError`; `ok items` a readable JSON array of strings. -/
inductive ContentSource where
  | missing
  | malformed
  | ok (items : List String)
deriving DecidableEq

/-- `TwitterBot.load_tweets`: returns the parsed list, or `[]` on
`FileNotFoundError` / `json.JSONDecodeError`. -/
def load_tweets : ContentSource → List String
  | .missing => []
  | .malformed => []
  | .ok items => items

/-! ### Decimal rendering and parsing (Python `str(int)` / `int(str)`) -/

/-- Fuel-driven accumulator rendering of a natural number in decimal,
most significant digit first (model of Python `str` on a non-negative
int; structured like core `Nat.toDigitsCore` so the kernel can reduce it). -/
def natToCharsAux : Nat → Nat → List Char → List Char
  | 0, _, acc => acc
  | fuel + 1, n, acc =>
    if n < 10 then Nat.digitChar n :: acc
    else natToCharsAux fuel (n / 10) (Nat.digitChar (n % 10) :: acc)

/-- Decimal digit characters of `n`, most significant first. -/
def natToChars (n : Nat) : List Char :=
  natToCharsAux (n + 1) n []

/-- Model of Python `str(i)` for an `int`: decimal digits, `-`-prefixed
when negative, no leading zeros, `"0"` for zero. -/
def pyStr (i : Int) : String :=
  if i < 0 then String.mk (Char.ofNat 45 :: natToChars (-i).toNat)
  else String.mk (natToChars i.toNat)

/-- Accumulating decimal value of a digit-character list
(`'7'` contributes `7 = toNat '7' - 48`). -/
def digitsVal (a : Nat) (cs : List Char) : Nat :=
  cs.foldl (fun x c => x * 10 + (c.toNat - 48)) a

/-- Parse a non-empty all-digit character list as a natural number
(the digit part of Python `int(...)`; anything else raises `ValueError`,
modelled as `none`). -/
def parseDigits (cs : List Char) : Option Nat :=
  if cs.isEmpty then none
  else if cs.all Char.isDigit then some (digitsVal 0 cs) else none

/-- Model of Python `int(s)` on an already-stripped string: an optional
sign followed by one or more decimal digits; anything else is a
`ValueError`, modelled as `none`. -/
def pyInt? (s : String) : Option Int :=
  match s.data with
  | [] => none
  | c :: rest =>
    if c = Char.ofNat 45 then (parseDigits rest).map (fun n => -(n : Int))
    else if c = Char.ofNat 43 then (parseDigits rest).map (fun n => (n : Int))
    else (parseDigits (c :: rest)).map (fun n => (n : Int))

/-- Model of Python `str.strip()`: drop whitespace from both ends. -/
def pyStrip (s : String) : String :=
  String.mk (((s.data.dropWhile Char.isWhitespace).reverse.dropWhile
    Char.isWhitespace).reverse)

/-! ### Cursor persistence -/

/-- `TwitterBot.load_current_index`: read `current_index.txt`
(`cursorFile = none` when the file does not exist, `some raw` for its raw
contents), parse `int(raw.strip())`, and return the parsed value when the
tweet list is non-empty (truthy) and the value is `< len(tweets)`;
return `0` on a missing file, a parse failure, or otherwise. -/
def load_current_index (cursorFile : Option String) (tweets : List String) : Int :=
  match cursorFile with
  | none => 0
  | some raw =>
    match pyInt? (pyStrip raw) with
    | none => 0
    | some i => if tweets ≠ [] ∧ i < (tweets.length : Int) then i else 0

/-! ### Bot state -/

/-- In-memory state of a `TwitterBot` together with the cursor file.
`apiOk = false` models `self.api is None` (client construction failed);
`cursorFile` is the raw contents of `current_index.txt` (`none` =
absent).  Write failures in `save_current_index` are swallowed by the
source; the model takes the write to succeed. -/
structure BotState where
  tweets : List String
  current_index : Int
  apiOk : Bool
  cursorFile : Option String
deriving DecidableEq

/-- `TwitterBot.save_current_index`: write `str(self.current_index)` to
`current_index.txt`. -/
def save_current_index (s : BotState) : BotState :=
  { s with cursorFile := some (pyStr s.current_index) }

/-- `TwitterBot.reload_tweets`: reload the list from the source; when it
differs from the previous in-memory list, set the cursor to `0` and
persist it.  The returned `Bool` records whether `save_current_index`
ran (i.e. whether the cursor file was written). -/
def reload_tweets (s : BotState) (src : ContentSource) : BotState × Bool :=
  let old := s.tweets
  let s1 : BotState := { s with tweets := load_tweets src }
  if old ≠ s1.tweets then
    (save_current_index { s1 with current_index := 0 }, true)
  else
    (s1, false)

/-! ### Publish attempt -/

/-- The fixed alphabet of invisible characters appended before
submission: ZERO WIDTH SPACE, ZERO WIDTH NON-JOINER, ZERO WIDTH JOINER,
WORD JOINER, ZERO WIDTH NO-BREAK SPACE. -/
def invisible_chars : List Char :=
  [Char.ofNat 0x200B, Char.ofNat 0x200C, Char.ofNat 0x200D,
   Char.ofNat 0x2060, Char.ofNat 0xFEFF]

/-- `''.join(random.choice(invisible_chars) for _ in range(random.randint(1, 5)))`:
the random choices are passed in as `picks` (one alphabet index per
generated character; `randint(1, 5)` makes `1 ≤ picks.length ≤ 5`). -/
def random_invisible (picks : List (Fin 5)) : String :=
  String.mk (picks.map fun i => invisible_chars.get ⟨i.1, i.2⟩)

/-- Python list indexing `l[i]` for a possibly negative `int` index:
`-len ≤ i < 0` wraps around, out-of-range raises `IndexError`
(modelled as `none`). -/
def pyGet (l : List String) (i : Int) : Option String :=
  if 0 ≤ i then l.get? i.toNat
  else if (-i).toNat ≤ l.length then l.get? (l.length - (-i).toNat)
  else none

/-- The cursor advance `(self.current_index + 1) % len(self.tweets)`
(Python `%` on a positive modulus agrees with `Int.emod`). -/
def advance (n : Nat) (c : Int) : Int :=
  (c + 1) % (n : Int)

/-- Outcome of one publish attempt, chosen by the environment:
`success` = one of the three send methods succeeded; `allMethodsFail` =
all three methods failed with their exceptions caught by the inner
handlers (`success` stays `False`, nothing reaches the outer handler);
`raised msg` = an exception with text `msg` reached the outer
`except Exception as e` handler. -/
inductive AttemptOutcome where
  | success
  | allMethodsFail
  | raised (msg : String)
deriving DecidableEq

/-- Python `needle in hay` on lists of characters (contiguous
substring containment). -/
def listContainsSub (hay needle : List Char) : Bool :=
  match hay with
  | [] => needle.isEmpty
  | _ :: t => needle.isPrefixOf hay || listContainsSub t needle

/-- Python `needle in hay` on strings. -/
def strContains (hay needle : String) : Bool :=
  listContainsSub hay.data needle.data

/-- Model of Python `str.lower()`: lower-case character by character
(`Char.toLower`, like core `String.toLower`, handles basic latin). -/
def pyLower (s : String) : String :=
  String.mk (s.data.map Char.toLower)

/-- Classification of one publish attempt, per the spec's taxonomy,
derived from the code's branch structure: the `success` flag, and the
outer handler's two substring tests on `str(e).lower()`. -/
inductive Classification where
  | Success
  | DuplicateRejected
  | RateLimited
  | TransientError
deriving DecidableEq

/-- Classify an attempt outcome the way `post_next_tweet` discriminates
it: success; else, if the escaped exception text contains `"duplicate"`
(case-insensitively) it is a duplicate rejection; else if it contains
`"rate limit"` it is a rate limit; everything else (including all three
methods failing silently) is transient. -/
def classify : AttemptOutcome → Classification
  | .success => .Success
  | .allMethodsFail => .TransientError
  | .raised msg =>
    if strContains (pyLower msg) "duplicate" then .DuplicateRejected
    else if strContains (pyLower msg) "rate limit" then .RateLimited
    else .TransientError

/-- Observable log of one posting cycle: whether a publish was
attempted, the exact text submitted, how many times the cursor file was
written during the cycle, and whether the empty-content condition was
reported (`"게시할 트윗이 없습니다."`). -/
structure CycleLog where
  attempted : Bool
  sent : Option String
  writes : Nat
  emptyContent : Bool
deriving DecidableEq

/-- Cursor advance + persist, as performed on success and on a
duplicate-content error:
`self.current_index = (self.current_index + 1) % len(self.tweets);
self.save_current_index()`. -/
def advance_and_save (s1 : BotState) : BotState :=
  save_current_index { s1 with current_index := advance s1.tweets.length s1.current_index }

/-- The outer `except Exception as e` handler of `post_next_tweet`
(lines 212–224): on a `"duplicate"` message advance the cursor and
persist it; the `"rate limit"` branch only prints.  Returns the new
state and the number of cursor-file writes. -/
def handle_outer (s1 : BotState) (msg : String) : BotState × Nat :=
  if strContains (pyLower msg) "duplicate" then (advance_and_save s1, 1)
  else (s1, 0)

/-- Body of `post_next_tweet` after `reload_tweets`: the empty-list
check, the `self.api is None` check, item selection (a possible
`IndexError` escapes to the outer handler before any send), the
invisible-suffix mutation, the attempt, and cursor advancement.
`w1` counts cursor-file writes already performed by the reload. -/
def post_body (s1 : BotState) (oc : AttemptOutcome) (picks : List (Fin 5))
    (w1 : Nat) : BotState × CycleLog :=
  if s1.tweets.isEmpty then
    (s1, ⟨false, none, w1, true⟩)
  else if s1.apiOk = false then
    (s1, ⟨false, none, w1, false⟩)
  else
    match pyGet s1.tweets s1.current_index with
    | none =>
      let h := handle_outer s1 "list index out of range"
      (h.1, ⟨false, none, w1 + h.2, false⟩)
    | some tweet =>
      let modified := tweet ++ random_invisible picks
      match oc with
      | .success => (advance_and_save s1, ⟨true, some modified, w1 + 1, false⟩)
      | .allMethodsFail => (s1, ⟨true, some modified, w1, false⟩)
      | .raised msg =>
        let h := handle_outer s1 msg
        (h.1, ⟨true, some modified, w1 + h.2, false⟩)

/-- `TwitterBot.post_next_tweet`: one full posting cycle — reload the
tweet list (resetting/persisting the cursor if it changed), then run the
attempt body. -/
def post_next_tweet (s : BotState) (src : ContentSource) (oc : AttemptOutcome)
    (picks : List (Fin 5)) : BotState × CycleLog :=
  let r := reload_tweets s src
  post_body r.1 oc picks (if r.2 then 1 else 0)

/-- `TwitterBot.__init__` (the state-relevant part): construct the API
client (`authOk = false` when construction or `verify_credentials`
raises, absorbed by setting `self.api = None`), load the tweet list, and
load the persisted cursor against it. -/
def TwitterBot_init (authOk : Bool) (src : ContentSource)
    (cursorFile : Option String) : BotState :=
  let tweets := load_tweets src
  { tweets := tweets
    current_index := load_current_index cursorFile tweets
    apiOk := authOk
    cursorFile := cursorFile }

/-! ### Helper lemmas -/

theorem digitChar_toNat {d : Nat} (h : d < 10) : (Nat.digitChar d).toNat = 48 + d := by
  interval_cases d <;> rfl

theorem digitChar_isDigit {d : Nat} (h : d < 10) : (Nat.digitChar d).isDigit = true := by
  interval_cases d <;> decide

theorem digitChar_not_whitespace {d : Nat} (h : d < 10) :
    (Nat.digitChar d).isWhitespace = false := by
  interval_cases d <;> decide

theorem digitChar_ne_minus {d : Nat} (h : d < 10) : Nat.digitChar d ≠ Char.ofNat 45 := by
  interval_cases d <;> decide

theorem digitChar_ne_plus {d : Nat} (h : d < 10) : Nat.digitChar d ≠ Char.ofNat 43 := by
  interval_cases d <;> decide

theorem natToCharsAux_head (fuel : Nat) :
    ∀ n acc, n < fuel →
      ∃ d rest, d < 10 ∧ natToCharsAux fuel n acc = Nat.digitChar d :: rest := by
  induction fuel with
  | zero => intro n acc h; omega
  | succ fuel ih =>
    intro n acc h
    by_cases h10 : n < 10
    · exact ⟨n, acc, h10, by simp [natToCharsAux, h10]⟩
    · have hlt : n / 10 < n := Nat.div_lt_self (by omega) (by omega)
      obtain ⟨d, rest, hd, heq⟩ :=
        ih (n / 10) (Nat.digitChar (n % 10) :: acc) (by omega)
      exact ⟨d, rest, hd, by rw [natToCharsAux, if_neg h10]; exact heq⟩

theorem natToCharsAux_mem (fuel : Nat) :
    ∀ n acc, n < fuel → ∀ c, c ∈ natToCharsAux fuel n acc →
      (∃ d, d < 10 ∧ c = Nat.digitChar d) ∨ c ∈ acc := by
  induction fuel with
  | zero => intro n acc h; omega
  | succ fuel ih =>
    intro n acc h c hc
    by_cases h10 : n < 10
    · rw [natToCharsAux, if_pos h10] at hc
      rcases List.mem_cons.mp hc with h1 | h1
      · exact Or.inl ⟨n, h10, h1⟩
      · exact Or.inr h1
    · have hlt : n / 10 < n := Nat.div_lt_self (by omega) (by omega)
      rw [natToCharsAux, if_neg h10] at hc
      rcases ih (n / 10) (Nat.digitChar (n % 10) :: acc) (by omega) c hc with h1 | h1
      · exact Or.inl h1
      · rcases List.mem_cons.mp h1 with h2 | h2
        · exact Or.inl ⟨n % 10, by omega, h2⟩
        · exact Or.inr h2

theorem natToCharsAux_val (fuel : Nat) :
    ∀ n acc, n < fuel → digitsVal 0 (natToCharsAux fuel n acc) = digitsVal n acc := by
  induction fuel with
  | zero => intro n acc h; omega
  | succ fuel ih =>
    intro n acc h
    by_cases h10 : n < 10
    · rw [natToCharsAux, if_pos h10]
      simp [digitsVal, digitChar_toNat h10]
    · have hlt : n / 10 < n := Nat.div_lt_self (by omega) (by omega)
      rw [natToCharsAux, if_neg h10,
        ih (n / 10) (Nat.digitChar (n % 10) :: acc) (by omega)]
      simp only [digitsVal, List.foldl_cons, digitChar_toNat (Nat.mod_lt n (by omega))]
      congr 1
      omega

theorem natToChars_head (n : Nat) :
    ∃ d rest, d < 10 ∧ natToChars n = Nat.digitChar d :: rest :=
  natToCharsAux_head (n + 1) n [] (by omega)

theorem natToChars_mem (n : Nat) :
    ∀ c, c ∈ natToChars n → ∃ d, d < 10 ∧ c = Nat.digitChar d := by
  intro c hc
  rcases natToCharsAux_mem (n + 1) n [] (by omega) c hc with h | h
  · exact h
  · simp at h

theorem natToChars_val (n : Nat) : digitsVal 0 (natToChars n) = n := by
  rw [natToChars, natToCharsAux_val (n + 1) n [] (by omega)]
  rfl

theorem dropWhile_of_none {p : Char → Bool} {l : List Char}
    (h : ∀ c ∈ l, p c = false) : l.dropWhile p = l := by
  cases l with
  | nil => rfl
  | cons a t =>
    rw [List.dropWhile_cons, h a (List.mem_cons_self a t)]
    simp

theorem pyStrip_id {cs : List Char}
    (h : ∀ c ∈ cs, Char.isWhitespace c = false) :
    pyStrip (String.mk cs) = String.mk cs := by
  unfold pyStrip
  rw [show (String.mk cs).data = cs from rfl, dropWhile_of_none h,
    dropWhile_of_none (by intro c hc; exact h c (List.mem_reverse.mp hc)),
    List.reverse_reverse]

theorem pyInt?_mk_cons (c : Char) (rest : List Char) :
    pyInt? (String.mk (c :: rest)) =
      if c = Char.ofNat 45 then (parseDigits rest).map (fun n => -(n : Int))
      else if c = Char.ofNat 43 then (parseDigits rest).map (fun n => (n : Int))
      else (parseDigits (c :: rest)).map (fun n => (n : Int)) := rfl

theorem pyInt?_natToChars (n : Nat) : pyInt? (String.mk (natToChars n)) = some (n : Int) := by
  obtain ⟨d, rest, hd, heq⟩ := natToChars_head n
  rw [heq, pyInt?_mk_cons]
  rw [if_neg (digitChar_ne_minus hd), if_neg (digitChar_ne_plus hd), ← heq]
  have hall : (natToChars n).all Char.isDigit = true := by
    rw [List.all_eq_true]
    intro c hc
    obtain ⟨e, he, hce⟩ := natToChars_mem n c hc
    rw [hce]; exact digitChar_isDigit he
  have hne : (natToChars n).isEmpty = false := by rw [heq]; rfl
  rw [parseDigits, hne, if_neg (by simp), if_pos hall, natToChars_val n]
  simp

theorem pyStr_nonneg_roundtrip {i : Int} (h : 0 ≤ i) :
    pyInt? (pyStrip (pyStr i)) = some i := by
  rw [pyStr, if_neg (by omega)]
  rw [pyStrip_id (by
    intro c hc
    obtain ⟨d, hd, hcd⟩ := natToChars_mem i.toNat c hc
    rw [hcd]; exact digitChar_not_whitespace hd)]
  rw [pyInt?_natToChars, Int.toNat_of_nonneg h]

theorem pyStr_zero : pyStr 0 = "0" := by decide

theorem reload_tweets_no_change {s : BotState} {src : ContentSource}
    (h : load_tweets src = s.tweets) : reload_tweets s src = (s, false) := by
  unfold reload_tweets
  rw [h]
  simp

theorem reload_tweets_change {s : BotState} {src : ContentSource}
    (h : load_tweets src ≠ s.tweets) :
    reload_tweets s src =
      (⟨load_tweets src, 0, s.apiOk, some (pyStr 0)⟩, true) := by
  unfold reload_tweets
  rw [if_pos (by simpa using Ne.symm h)]
  rfl

theorem reload_tweets_apiOk (s : BotState) (src : ContentSource) :
    (reload_tweets s src).1.apiOk = s.apiOk := by
  by_cases h : load_tweets src = s.tweets
  · rw [reload_tweets_no_change h]
  · rw [reload_tweets_change h]

theorem pyGet_valid {l : List String} {i : Int} (h0 : 0 ≤ i) (h1 : i < (l.length : Int)) :
    pyGet l i = some (l.get ⟨i.toNat, by omega⟩) := by
  rw [pyGet, if_pos h0, List.get?_eq_get (by omega : i.toNat < l.length)]

theorem isEmpty_false_of_valid {s1 : BotState}
    (h0 : 0 ≤ s1.current_index)
    (h1 : s1.current_index < (s1.tweets.length : Int)) :
    s1.tweets.isEmpty = false := by
  cases hl : s1.tweets with
  | nil => rw [hl] at h1; simp at h1; omega
  | cons a t => rfl

/-- Behaviour of the cycle body after a no-op reload, for an in-range
cursor and a configured API client, for each attempt outcome. -/
theorem post_body_spec {s1 : BotState} {picks : List (Fin 5)} {w1 : Nat}
    (hapi : s1.apiOk = true) (h0 : 0 ≤ s1.current_index)
    (h1 : s1.current_index < (s1.tweets.length : Int)) :
    ∃ t, pyGet s1.tweets s1.current_index = some t ∧
      (∀ msg, post_body s1 (.raised msg) picks w1 =
        ((handle_outer s1 msg).1,
         ⟨true, some (t ++ random_invisible picks), w1 + (handle_outer s1 msg).2, false⟩)) ∧
      post_body s1 .success picks w1 =
        (advance_and_save s1,
         ⟨true, some (t ++ random_invisible picks), w1 + 1, false⟩) ∧
      post_body s1 .allMethodsFail picks w1 =
        (s1, ⟨true, some (t ++ random_invisible picks), w1, false⟩) := by
  have hne := isEmpty_false_of_valid h0 h1
  refine ⟨s1.tweets.get ⟨s1.current_index.toNat, by omega⟩, pyGet_valid h0 h1, ?_, ?_, ?_⟩
  · intro msg
    unfold post_body
    rw [hne, hapi, pyGet_valid h0 h1]
    simp
  · unfold post_body
    rw [hne, hapi, pyGet_valid h0 h1]
    simp
  · unfold post_body
    rw [hne, hapi, pyGet_valid h0 h1]
    simp

theorem handle_outer_dup {s1 : BotState} {msg : String}
    (h : strContains (pyLower msg) "duplicate" = true) :
    handle_outer s1 msg = (advance_and_save s1, 1) := by
  unfold handle_outer
  rw [if_pos h]

theorem handle_outer_not_dup {s1 : BotState} {msg : String}
    (h : strContains (pyLower msg) "duplicate" = false) :
    handle_outer s1 msg = (s1, 0) := by
  unfold handle_outer
  rw [if_neg (by simp [h])]

theorem classify_raised_dup {msg : String}
    (h : strContains (pyLower msg) "duplicate" = true) :
    classify (.raised msg) = .DuplicateRejected := by
  simp only [classify]
  rw [if_pos h]

theorem classify_raised_rate_limit {msg : String}
    (hd : strContains (pyLower msg) "duplicate" = false)
    (hr : strContains (pyLower msg) "rate limit" = true) :
    classify (.raised msg) = .RateLimited := by
  simp only [classify]
  rw [if_neg (by simp [hd]), if_pos hr]

theorem classify_raised_transient {msg : String}
    (hd : strContains (pyLower msg) "duplicate" = false)
    (hr : strContains (pyLower msg) "rate limit" = false) :
    classify (.raised msg) = .TransientError := by
  simp only [classify]
  rw [if_neg (by simp [hd]), if_neg (by simp [hr])]

theorem post_next_tweet_no_change {s : BotState} {src : ContentSource}
    (h : load_tweets src = s.tweets) (oc : AttemptOutcome) (picks : List (Fin 5)) :
    post_next_tweet s src oc picks = post_body s oc picks 0 := by
  unfold post_next_tweet
  rw [reload_tweets_no_change h]
  simp

/-! ### Claims -/

/-- C1: with a non-empty content list of length `n` left unchanged by the
refresh and a valid cursor, a publish attempt classified as success or
duplicate-rejected sets the cursor to `(cursor + 1) mod n` and persists
exactly that value to the cursor file, while an attempt classified as
rate-limited or transient-error leaves the cursor unchanged. -/
theorem C1_advance_on_success_or_duplicate (s : BotState) (src : ContentSource)
    (oc : AttemptOutcome) (picks : List (Fin 5))
    (hapi : s.apiOk = true) (hsrc : load_tweets src = s.tweets)
    (h0 : 0 ≤ s.current_index) (h1 : s.current_index < (s.tweets.length : Int)) :
    ((classify oc = .Success ∨ classify oc = .DuplicateRejected) →
      (post_next_tweet s src oc picks).1.current_index
          = (s.current_index + 1) % (s.tweets.length : Int) ∧
      (post_next_tweet s src oc picks).1.cursorFile
          = some (pyStr ((s.current_index + 1) % (s.tweets.length : Int)))) ∧
    ((classify oc = .RateLimited ∨ classify oc = .TransientError) →
      (post_next_tweet s src oc picks).1.current_index = s.current_index) := by
  obtain ⟨t, ht, hraised, hsucc, hfail⟩ :=
    @post_body_spec s picks 0 hapi h0 h1
  rw [post_next_tweet_no_change hsrc]
  cases oc with
  | success =>
    refine ⟨fun _ => ?_, fun hcl => ?_⟩
    · rw [hsucc]
      exact ⟨rfl, rfl⟩
    · rcases hcl with h | h <;> simp [classify] at h
  | allMethodsFail =>
    refine ⟨fun hcl => ?_, fun _ => ?_⟩
    · rcases hcl with h | h <;> simp [classify] at h
    · rw [hfail]
  | raised msg =>
    by_cases hdup : strContains (pyLower msg) "duplicate" = true
    · refine ⟨fun _ => ?_, fun hcl => ?_⟩
      · rw [hraised msg, handle_outer_dup hdup]
        exact ⟨rfl, rfl⟩
      · rw [classify_raised_dup hdup] at hcl
        rcases hcl with h | h <;> simp at h
    · have hdup' : strContains (pyLower msg) "duplicate" = false := by
        simpa using hdup
      refine ⟨fun hcl => ?_, fun _ => ?_⟩
      · by_cases hr : strContains (pyLower msg) "rate limit" = true
        · rw [classify_raised_rate_limit hdup' hr] at hcl
          rcases hcl with h | h <;> simp at h
        · rw [classify_raised_transient hdup' (by simpa using hr)] at hcl
          rcases hcl with h | h <;> simp at h
      · rw [hraised msg, handle_outer_not_dup hdup']

/-- Witness for C1 (Scenario A: list `["a","b","c"]`, cursor `0`,
successful publish advances and persists the cursor as `1`). -/
theorem C1_witness :
    (post_next_tweet ⟨["a", "b", "c"], 0, true, some "0"⟩ (.ok ["a", "b", "c"])
        .success [(0 : Fin 5)]).1.current_index
      = ((0 : Int) + 1) % ((3 : Nat) : Int) :=
  ((C1_advance_on_success_or_duplicate ⟨["a", "b", "c"], 0, true, some "0"⟩
      (.ok ["a", "b", "c"]) .success [(0 : Fin 5)]
      (by decide) (by decide) (by decide) (by decide)).1 (Or.inl rfl)).1

theorem advance_iterate {n : Nat} {c : Int} (h0 : 0 ≤ c) (h1 : c < (n : Int)) :
    ∀ k : Nat, (advance n)^[k] c = (c + k) % (n : Int) := by
  intro k
  induction k with
  | zero => simpa using (Int.emod_eq_of_lt h0 h1).symm
  | succ k ih =>
    rw [Function.iterate_succ_apply', ih]
    unfold advance
    rw [Int.emod_add_emod]
    push_cast
    ring_nf

/-- C2: for a list of length `n > 0` and any valid starting cursor,
iterating the `Advance` operation visits `n` pairwise distinct indices
(hence every index in `{0, ..., n-1}` exactly once) before repeating,
and the cycle length is exactly `n`. -/
theorem C2_rotation_visits_all (n : Nat) (c : Int)
    (hn : 0 < n) (h0 : 0 ≤ c) (h1 : c < (n : Int)) :
    (∀ i j : Nat, i < n → j < n →
      (advance n)^[i] c = (advance n)^[j] c → i = j) ∧
    (∀ m : Int, 0 ≤ m → m < (n : Int) → ∃ i : Nat, i < n ∧ (advance n)^[i] c = m) ∧
    (advance n)^[n] c = c := by
  have hit := advance_iterate h0 h1
  have hnz : ((n : Int)) ≠ 0 := by omega
  refine ⟨?_, ?_, ?_⟩
  · intro i j hi hj hij
    rw [hit i, hit j] at hij
    have h2 := Int.emod_eq_emod_iff_emod_sub_eq_zero.mp hij
    have h3 : ((n : Int)) ∣ ((i : Int) - j) := by
      refine Int.dvd_of_emod_eq_zero ?_
      have he : (c + i) - (c + j) = (i : Int) - j := by ring
      rwa [he] at h2
    have h4 : ((i : Int) - j) = 0 := by
      refine Int.eq_zero_of_abs_lt_dvd h3 ?_
      rw [abs_lt]
      omega
    omega
  · intro m hm0 hm1
    have hnn := Int.emod_nonneg (m - c) hnz
    have hlt := Int.emod_lt_of_pos (m - c) (show (0 : Int) < n by omega)
    refine ⟨((m - c) % (n : Int)).toNat, by omega, ?_⟩
    rw [hit, Int.toNat_of_nonneg hnn, Int.add_emod_emod]
    have he : c + (m - c) = m := by ring
    rw [he, Int.emod_eq_of_lt hm0 hm1]
  · rw [hit n]
    have he : c + (n : Int) = c + (n : Int) * 1 := by ring
    rw [he, Int.add_mul_emod_self_left, Int.emod_eq_of_lt h0 h1]

/-- Witness for C2 at `n = 3`, `c = 0`: the hypotheses hold and the
cycle closes after exactly `3` advances. -/
theorem C2_witness :
    0 < 3 ∧ (advance 3)^[3] (0 : Int) = 0 :=
  ⟨by decide, (C2_rotation_visits_all 3 0 (by decide) (by decide) (by decide)).2.2⟩

theorem post_next_tweet_change {s : BotState} {src : ContentSource}
    (h : load_tweets src ≠ s.tweets) (oc : AttemptOutcome) (picks : List (Fin 5)) :
    post_next_tweet s src oc picks =
      post_body ⟨load_tweets src, 0, s.apiOk, some (pyStr 0)⟩ oc picks 1 := by
  unfold post_next_tweet
  rw [reload_tweets_change h]
  simp

/-- C3: the refresh step mutates the cursor exactly when the reloaded
list differs from the previous one — an unchanged source leaves the
state untouched (so a second refresh right after a first is always a
no-op), while any difference resets the cursor to `0` and persists `"0"`
to the cursor file, and the publish attempt of that same cycle then
selects element `0` of the new list. -/
theorem C3_refresh_reset (s : BotState) (src : ContentSource)
    (oc : AttemptOutcome) (picks : List (Fin 5)) :
    (load_tweets src = s.tweets → reload_tweets s src = (s, false)) ∧
    (reload_tweets (reload_tweets s src).1 src = ((reload_tweets s src).1, false)) ∧
    (load_tweets src ≠ s.tweets →
      (reload_tweets s src).1.current_index = 0 ∧
      (reload_tweets s src).1.cursorFile = some "0" ∧
      (reload_tweets s src).2 = true) ∧
    (∀ t, load_tweets src ≠ s.tweets → s.apiOk = true →
      (load_tweets src).get? 0 = some t →
      (post_next_tweet s src oc picks).2.sent = some (t ++ random_invisible picks)) := by
  refine ⟨fun h => reload_tweets_no_change h, ?_, fun h => ?_, fun t h hapi ht => ?_⟩
  · by_cases h : load_tweets src = s.tweets
    · rw [reload_tweets_no_change h]
      exact reload_tweets_no_change h
    · rw [reload_tweets_change h]
      exact reload_tweets_no_change rfl
  · rw [reload_tweets_change h]
    refine ⟨rfl, ?_, rfl⟩
    rw [show some (pyStr 0) = some "0" from by rw [pyStr_zero]]
  · have hlen : 0 < (load_tweets src).length := by
      rcases List.get?_eq_some.mp ht with ⟨hlt, _⟩
      omega
    rw [post_next_tweet_change h]
    obtain ⟨t', ht', hraised, hsucc, hfail⟩ :=
      @post_body_spec ⟨load_tweets src, 0, s.apiOk, some (pyStr 0)⟩
        picks 1 hapi (le_refl (0 : Int))
        (by show (0 : Int) < ((load_tweets src).length : Int); exact_mod_cast hlen)
    have htt : t' = t := by
      have hg : pyGet (load_tweets src) 0 = some t := by
        rw [pyGet, if_pos (by omega)]
        exact ht
      have := ht'.symm.trans hg
      exact Option.some.inj this
    cases oc with
    | success => rw [hsucc, htt]
    | allMethodsFail => rw [hfail, htt]
    | raised msg => rw [hraised msg, htt]

/-- Witness for C3 (Scenario C: the source changes from `["a","b"]` to
`["a","b","d"]` at cursor `1`: the unchanged-source refresh is a no-op,
and the changed-source cycle resets and persists the cursor before
selecting element `0`). -/
theorem C3_witness :
    reload_tweets ⟨["a", "b"], 1, true, some "1"⟩ (.ok ["a", "b"])
        = (⟨["a", "b"], 1, true, some "1"⟩, false) ∧
    (reload_tweets ⟨["a", "b"], 1, true, some "1"⟩ (.ok ["a", "b", "d"])).1.current_index = 0 ∧
    (reload_tweets ⟨["a", "b"], 1, true, some "1"⟩ (.ok ["a", "b", "d"])).1.cursorFile = some "0" ∧
    (post_next_tweet ⟨["a", "b"], 1, true, some "1"⟩ (.ok ["a", "b", "d"])
        .success [(0 : Fin 5)]).2.sent = some ("a" ++ random_invisible [(0 : Fin 5)]) := by
  have h := C3_refresh_reset ⟨["a", "b"], 1, true, some "1"⟩ (.ok ["a", "b", "d"])
    .success [(0 : Fin 5)]
  exact ⟨(C3_refresh_reset ⟨["a", "b"], 1, true, some "1"⟩ (.ok ["a", "b"])
      .success [(0 : Fin 5)]).1 (by decide),
    (h.2.2.1 (by decide)).1, (h.2.2.1 (by decide)).2.1,
    h.2.2.2 "a" (by decide) (by decide) (by decide)⟩

theorem post_body_empty {s1 : BotState} (oc : AttemptOutcome)
    (picks : List (Fin 5)) (w1 : Nat) (h : s1.tweets = []) :
    post_body s1 oc picks w1 = (s1, ⟨false, none, w1, true⟩) := by
  unfold post_body
  rw [h]
  simp

/-- C4 counterexample: with in-memory list `["a"]` and the content file
deleted, the cycle *does* write the cursor file (the change detection
resets and persists the cursor) and *does* mutate the state (the list is
cleared), contradicting the claim that a cycle run with an empty list
performs no file writes and mutates no state. -/
theorem C4_counterexample :
    (post_next_tweet ⟨["a"], 0, true, some "0"⟩ .missing .success []).2.writes = 1 ∧
    (post_next_tweet ⟨["a"], 0, true, some "0"⟩ .missing .success []).1
      ≠ ⟨["a"], 0, true, some "0"⟩ := by
  decide

/-- C4 amended: a missing or unparseable content source loads as the
empty list without raising; a cycle whose reloaded list is empty reports
the empty-content condition, attempts no post and submits nothing, and —
provided the in-memory list was already empty, so the change detection
does not fire — performs no file writes and leaves the state unchanged.
(When the list becomes empty on this very cycle, the change detection
first resets and persists the cursor, which is one file write and a
state mutation.) -/
theorem C4_empty_content_cycle (s : BotState) (src : ContentSource)
    (oc : AttemptOutcome) (picks : List (Fin 5))
    (hempty : load_tweets src = []) :
    load_tweets .missing = [] ∧ load_tweets .malformed = [] ∧
    (post_next_tweet s src oc picks).2.attempted = false ∧
    (post_next_tweet s src oc picks).2.sent = none ∧
    (post_next_tweet s src oc picks).2.emptyContent = true ∧
    (s.tweets = [] → post_next_tweet s src oc picks = (s, ⟨false, none, 0, true⟩)) := by
  by_cases hchg : load_tweets src = s.tweets
  · have hse : s.tweets = [] := hchg.symm.trans hempty
    rw [post_next_tweet_no_change hchg, post_body_empty oc picks 0 hse]
    exact ⟨rfl, rfl, rfl, rfl, rfl, fun _ => rfl⟩
  · rw [post_next_tweet_change hchg,
      post_body_empty oc picks 1 (by rw [hempty])]
    exact ⟨rfl, rfl, rfl, rfl, rfl,
      fun hse => absurd (hempty.trans hse.symm) hchg⟩

/-- Witness for C4 at the already-empty state: the cycle is a strict
no-op with zero writes. -/
theorem C4_witness :
    post_next_tweet ⟨[], 0, true, none⟩ .missing .success []
      = (⟨[], 0, true, none⟩, ⟨false, none, 0, true⟩) :=
  (C4_empty_content_cycle ⟨[], 0, true, none⟩ .missing .success [] rfl).2.2.2.2.2 rfl

/-- C5 counterexample: the persisted value `"-1"` is present, readable,
and not `≥` the length of the (empty) current list, so the claim says
`load` returns the stored value `-1`; the code returns `0` (the
truthiness test `if self.tweets` fails on an empty list regardless of
the sign of the stored value). -/
theorem C5_counterexample :
    pyInt? (pyStrip "-1") = some (-1) ∧
    ¬ ((([] : List String).length : Int) ≤ -1) ∧
    load_current_index (some "-1") [] = 0 := by
  decide

/-- C5 amended: `load_current_index` returns `0` when the persisted
value is absent, unreadable, not below the current list length, or the
current list is empty; otherwise (a readable stored value `i` with
`i < length`, non-empty list — including negative `i`) it returns the
stored value unchanged. -/
theorem C5_load_cursor_contract (tweets : List String) (raw : String) (i : Int) :
    (load_current_index none tweets = 0) ∧
    (pyInt? (pyStrip raw) = none → load_current_index (some raw) tweets = 0) ∧
    (pyInt? (pyStrip raw) = some i → (tweets.length : Int) ≤ i →
      load_current_index (some raw) tweets = 0) ∧
    (tweets = [] → load_current_index (some raw) tweets = 0) ∧
    (pyInt? (pyStrip raw) = some i → tweets ≠ [] → i < (tweets.length : Int) →
      load_current_index (some raw) tweets = i) := by
  refine ⟨rfl, fun h => ?_, fun h hle => ?_, fun h => ?_, fun h hne hlt => ?_⟩
  · simp [load_current_index, h]
  · simp [load_current_index, h]
    intro _
    omega
  · cases hp : pyInt? (pyStrip raw) with
    | none => simp [load_current_index, hp]
    | some j => simp [load_current_index, hp, h]
  · simp [load_current_index, h, hne, hlt]

/-- Witness for C5: a stored `"2"` against a three-element list is
returned as is, and a stored `"3"` against the same list clamps to `0`. -/
theorem C5_witness :
    load_current_index (some "2") ["a", "b", "c"] = 2 ∧
    load_current_index (some "3") ["a", "b", "c"] = 0 :=
  ⟨(C5_load_cursor_contract ["a", "b", "c"] "2" 2).2.2.2.2 (by decide)
      (by decide) (by decide),
   (C5_load_cursor_contract ["a", "b", "c"] "3" 3).2.2.1 (by decide) (by decide)⟩

/-- C6 counterexample: the error text `"Error 429"` contains the
substring `"429"` but the code's outer handler only tests for
`"duplicate"` and `"rate limit"`, so the attempt is classified as a
transient error, not as rate-limited. -/
theorem C6_counterexample :
    strContains (pyLower "Error 429") "429" = true ∧
    classify (.raised "Error 429") ≠ .RateLimited := by
  decide

/-- C6 amended: an error whose text contains `"duplicate"`
(case-insensitively) is classified duplicate-rejected and advances the
cursor; an error containing `"rate limit"` (and not `"duplicate"`) is
classified rate-limited and does not advance the cursor; an error
containing neither substring — even one containing `"429"` — is
classified transient and does not advance the cursor. -/
theorem C6_error_classification (s : BotState) (src : ContentSource)
    (msg : String) (picks : List (Fin 5))
    (hapi : s.apiOk = true) (hsrc : load_tweets src = s.tweets)
    (h0 : 0 ≤ s.current_index) (h1 : s.current_index < (s.tweets.length : Int)) :
    (strContains (pyLower msg) "duplicate" = true →
      classify (.raised msg) = .DuplicateRejected ∧
      (post_next_tweet s src (.raised msg) picks).1.current_index
        = (s.current_index + 1) % (s.tweets.length : Int)) ∧
    (strContains (pyLower msg) "duplicate" = false →
      strContains (pyLower msg) "rate limit" = true →
      classify (.raised msg) = .RateLimited ∧
      (post_next_tweet s src (.raised msg) picks).1.current_index
        = s.current_index) ∧
    (strContains (pyLower msg) "duplicate" = false →
      strContains (pyLower msg) "rate limit" = false →
      classify (.raised msg) = .TransientError ∧
      (post_next_tweet s src (.raised msg) picks).1.current_index
        = s.current_index) := by
  obtain ⟨t, ht, hraised, hsucc, hfail⟩ :=
    @post_body_spec s picks 0 hapi h0 h1
  rw [post_next_tweet_no_change hsrc]
  refine ⟨fun hd => ⟨classify_raised_dup hd, ?_⟩,
    fun hd hr => ⟨classify_raised_rate_limit hd hr, ?_⟩,
    fun hd hr => ⟨classify_raised_transient hd hr, ?_⟩⟩
  · rw [hraised msg, handle_outer_dup hd]
    rfl
  · rw [hraised msg, handle_outer_not_dup hd]
  · rw [hraised msg, handle_outer_not_dup hd]

/-- Witness for C6: a duplicate-content error advances the cursor from
`0` to `1`, a rate-limit error leaves it at `0`. -/
theorem C6_witness :
    classify (.raised "Status is a duplicate.") = .DuplicateRejected ∧
    (post_next_tweet ⟨["a", "b"], 0, true, some "0"⟩ (.ok ["a", "b"])
        (.raised "Status is a duplicate.") []).1.current_index
      = ((0 : Int) + 1) % ((2 : Nat) : Int) ∧
    (post_next_tweet ⟨["a", "b"], 0, true, some "0"⟩ (.ok ["a", "b"])
        (.raised "Rate limit exceeded") []).1.current_index = 0 := by
  have hd := (C6_error_classification ⟨["a", "b"], 0, true, some "0"⟩
    (.ok ["a", "b"]) "Status is a duplicate." []
    (by decide) (by decide) (by decide) (by decide)).1 (by decide)
  have hr := ((C6_error_classification ⟨["a", "b"], 0, true, some "0"⟩
    (.ok ["a", "b"]) "Rate limit exceeded" []
    (by decide) (by decide) (by decide) (by decide)).2.1 (by decide) (by decide)).2
  exact ⟨hd.1, hd.2, hr⟩

theorem post_attempted_true {s : BotState} {src : ContentSource}
    (oc : AttemptOutcome) (picks : List (Fin 5))
    (hapi : s.apiOk = true) (hsrc : load_tweets src = s.tweets)
    (h0 : 0 ≤ s.current_index) (h1 : s.current_index < (s.tweets.length : Int)) :
    (post_next_tweet s src oc picks).2.attempted = true := by
  obtain ⟨t, ht, hraised, hsucc, hfail⟩ :=
    @post_body_spec s picks 0 hapi h0 h1
  rw [post_next_tweet_no_change hsrc]
  cases oc with
  | success => rw [hsucc]
  | allMethodsFail => rw [hfail]
  | raised msg => rw [hraised msg]

/-- C7 counterexample: a publish attempt failing with
`"Rate limit exceeded"` leaves the *entire* bot state (list, cursor,
API flag, cursor file) unchanged — no cooldown deadline is recorded
anywhere — and a posting cycle run immediately afterwards (e.g. ten
minutes later) is not a no-op: it attempts a publish. -/
theorem C7_counterexample :
    (post_next_tweet ⟨["a"], 0, true, some "0"⟩ (.ok ["a"])
        (.raised "Rate limit exceeded") []).1 = ⟨["a"], 0, true, some "0"⟩ ∧
    (post_next_tweet ⟨["a"], 0, true, some "0"⟩ (.ok ["a"])
        .success []).2.attempted = true := by
  decide

/-- C7 amended: after a rate-limit-classified failure the cursor and the
whole bot state are unchanged, but no cooldown of any duration is set —
the state carries no cooldown at all — so any subsequent posting cycle,
whenever it fires, proceeds normally and attempts a publish. -/
theorem C7_rate_limit_no_cooldown (s : BotState) (src : ContentSource)
    (msg : String) (picks picks2 : List (Fin 5)) (oc2 : AttemptOutcome)
    (hapi : s.apiOk = true) (hsrc : load_tweets src = s.tweets)
    (h0 : 0 ≤ s.current_index) (h1 : s.current_index < (s.tweets.length : Int))
    (hdup : strContains (pyLower msg) "duplicate" = false)
    (hrl : strContains (pyLower msg) "rate limit" = true) :
    classify (.raised msg) = .RateLimited ∧
    (post_next_tweet s src (.raised msg) picks).1 = s ∧
    (post_next_tweet (post_next_tweet s src (.raised msg) picks).1 src
        oc2 picks2).2.attempted = true := by
  obtain ⟨t, ht, hraised, hsucc, hfail⟩ :=
    @post_body_spec s picks 0 hapi h0 h1
  have hstate : (post_next_tweet s src (.raised msg) picks).1 = s := by
    rw [post_next_tweet_no_change hsrc, hraised msg, handle_outer_not_dup hdup]
  refine ⟨classify_raised_rate_limit hdup hrl, hstate, ?_⟩
  rw [hstate]
  exact post_attempted_true oc2 picks2 hapi hsrc h0 h1

/-- Witness for C7: concrete rate-limited cycle followed by an
immediate next cycle that attempts a publish. -/
theorem C7_witness :
    (post_next_tweet ⟨["x", "y"], 1, true, some "1"⟩ (.ok ["x", "y"])
        (.raised "429 Too Many Requests: rate limit") []).1 = ⟨["x", "y"], 1, true, some "1"⟩ ∧
    (post_next_tweet (post_next_tweet ⟨["x", "y"], 1, true, some "1"⟩ (.ok ["x", "y"])
        (.raised "429 Too Many Requests: rate limit") []).1 (.ok ["x", "y"])
        .success []).2.attempted = true := by
  have h := C7_rate_limit_no_cooldown ⟨["x", "y"], 1, true, some "1"⟩ (.ok ["x", "y"])
    "429 Too Many Requests: rate limit" [] [] .success
    (by decide) (by decide) (by decide) (by decide) (by decide) (by decide)
  exact ⟨h.2.1, h.2.2⟩

theorem post_body_no_api {s1 : BotState} (oc : AttemptOutcome)
    (picks : List (Fin 5)) (w1 : Nat) (h : s1.apiOk = false) :
    post_body s1 oc picks w1 = (s1, ⟨false, none, w1, s1.tweets.isEmpty⟩) := by
  unfold post_body
  by_cases he : s1.tweets.isEmpty = true
  · rw [if_pos he, he]
  · have he2 : s1.tweets.isEmpty = false := by simpa using he
    rw [if_neg he, if_pos h, he2]

/-- C8: a failed client construction is absorbed (`self.api = None`,
modelled as `apiOk = false`) rather than crashing, and in that state
every posting cycle returns without attempting any publish and without
submitting any text, and the fatal-auth state persists across cycles. -/
theorem C8_fatal_auth_no_post (s : BotState) (src src0 : ContentSource)
    (cursorFile0 : Option String) (oc : AttemptOutcome) (picks : List (Fin 5)) :
    (TwitterBot_init false src0 cursorFile0).apiOk = false ∧
    (s.apiOk = false →
      (post_next_tweet s src oc picks).2.attempted = false ∧
      (post_next_tweet s src oc picks).2.sent = none ∧
      (post_next_tweet s src oc picks).1.apiOk = false) := by
  refine ⟨rfl, fun h => ?_⟩
  have hapi1 : (reload_tweets s src).1.apiOk = false := by
    rw [reload_tweets_apiOk]
    exact h
  unfold post_next_tweet
  rw [post_body_no_api oc picks _ hapi1]
  exact ⟨rfl, rfl, hapi1⟩

/-- Witness for C8: a bot whose client construction failed runs a cycle
on a non-empty list without attempting a publish. -/
theorem C8_witness :
    (post_next_tweet ⟨["a"], 0, false, none⟩ (.ok ["a"]) .success []).2.attempted = false ∧
    (post_next_tweet ⟨["a"], 0, false, none⟩ (.ok ["a"]) .success []).1.apiOk = false := by
  have h := (C8_fatal_auth_no_post ⟨["a"], 0, false, none⟩ (.ok ["a"]) .missing none
    .success []).2 rfl
  exact ⟨h.1, h.2.2⟩

/-- C9: with a valid state and source, the text actually submitted by a
publish attempt is exactly the selected item followed by the generated
invisible suffix: between 1 and 5 characters (from `randint(1, 5)`),
each drawn from the fixed five-character invisible alphabet, with the
original item an unmodified prefix. -/
theorem C9_submitted_text (s : BotState) (src : ContentSource)
    (oc : AttemptOutcome) (picks : List (Fin 5))
    (hapi : s.apiOk = true) (hsrc : load_tweets src = s.tweets)
    (h0 : 0 ≤ s.current_index) (h1 : s.current_index < (s.tweets.length : Int))
    (hp1 : 1 ≤ picks.length) (hp5 : picks.length ≤ 5) :
    ∃ t, pyGet s.tweets s.current_index = some t ∧
      (post_next_tweet s src oc picks).2.sent = some (t ++ random_invisible picks) ∧
      1 ≤ (random_invisible picks).length ∧
      (random_invisible picks).length ≤ 5 ∧
      (∀ c ∈ (random_invisible picks).data, c ∈ invisible_chars) ∧
      t.data <+: (t ++ random_invisible picks).data := by
  obtain ⟨t, ht, hraised, hsucc, hfail⟩ :=
    @post_body_spec s picks 0 hapi h0 h1
  have hlen : (random_invisible picks).length = picks.length := by
    rw [random_invisible, String.length_mk, List.length_map]
  refine ⟨t, ht, ?_, by omega, by omega, ?_, ?_⟩
  · rw [post_next_tweet_no_change hsrc]
    cases oc with
    | success => rw [hsucc]
    | allMethodsFail => rw [hfail]
    | raised msg => rw [hraised msg]
  · intro c hc
    rcases List.mem_map.mp hc with ⟨i, _, hci⟩
    rw [← hci]
    exact List.get_mem _ _ _
  · exact ⟨(random_invisible picks).data, (String.data_append t _).symm⟩

/-- Witness for C9: posting `"hello"` with two random picks submits
`"hello"` followed by two invisible characters. -/
theorem C9_witness :
    ∃ t, pyGet ["hello"] (0 : Int) = some t ∧
      (post_next_tweet ⟨["hello"], 0, true, none⟩ (.ok ["hello"]) .success
          [(0 : Fin 5), (4 : Fin 5)]).2.sent
        = some (t ++ random_invisible [(0 : Fin 5), (4 : Fin 5)]) ∧
      1 ≤ (random_invisible [(0 : Fin 5), (4 : Fin 5)]).length ∧
      (random_invisible [(0 : Fin 5), (4 : Fin 5)]).length ≤ 5 ∧
      (∀ c ∈ (random_invisible [(0 : Fin 5), (4 : Fin 5)]).data, c ∈ invisible_chars) ∧
      t.data <+: (t ++ random_invisible [(0 : Fin 5), (4 : Fin 5)]).data :=
  C9_submitted_text ⟨["hello"], 0, true, none⟩ (.ok ["hello"]) .success
    [(0 : Fin 5), (4 : Fin 5)] (by decide) (by decide) (by decide) (by decide)
    (by decide) (by decide)

theorem load_current_index_some (raw : String) (tweets : List String) :
    load_current_index (some raw) tweets =
      match pyInt? (pyStrip raw) with
      | none => 0
      | some i => if tweets ≠ [] ∧ i < (tweets.length : Int) then i else 0 := rfl

/-- C10: cursor persistence round-trips — saving a valid in-range cursor
value through `save_current_index` (which writes its decimal rendering)
and re-reading it with `load_current_index` against the same tweet list
returns exactly the saved value. -/
theorem C10_cursor_roundtrip (s : BotState)
    (h0 : 0 ≤ s.current_index) (h1 : s.current_index < (s.tweets.length : Int)) :
    load_current_index (save_current_index s).cursorFile s.tweets
      = s.current_index := by
  have hne : s.tweets ≠ [] := by
    intro he
    rw [he] at h1
    simp at h1
    omega
  show load_current_index (some (pyStr s.current_index)) s.tweets = s.current_index
  simp only [load_current_index_some, pyStr_nonneg_roundtrip h0]
  rw [if_pos ⟨hne, h1⟩]

/-- Witness for C10: saving cursor `1` against `["a", "b"]` and loading
it back returns `1`. -/
theorem C10_witness :
    load_current_index (save_current_index ⟨["a", "b"], 1, true, none⟩).cursorFile
        ["a", "b"] = 1 :=
  C10_cursor_roundtrip ⟨["a", "b"], 1, true, none⟩ (by decide) (by decide)
